import Mathlib

/-!
Verification development for the Marantz SR6009 web-remote protocol adaptation
layer (`src/marantz_remote/response_parser.py`).

The Python decoder is shallowly embedded here.  Response lines are modelled as
`List Char` (a Python `str` is a sequence of characters; the transport layer
decodes bytes and strips the line terminator before the decoder runs).
Timestamps (`time.time()` in the source) are modelled as integers: the parser
only ever compares time differences against the integral inactivity timeout,
so integral instants are fully general for that logic.  Decoded numeric values
(Python floats such as `50.5`) are modelled as exact rationals; every value the
decoder produces is a decimal with at most one fractional digit, which floats
represent exactly.
-/

namespace Marantz

/-! ## Character and string primitives -/

/-- Characters removed by Python `str.strip()` (ASCII/latin-1 range, which is
the device's character repertoire): the ASCII whitespace characters, the
separator control characters 0x1C–0x1F, NEL 0x85 and NBSP 0xA0. -/
def isPyWs (c : Char) : Bool :=
  c == ' ' || c == '\t' || c == '\n' || c == '\x0b' || c == '\x0c' || c == '\r'
    || c == '\x1c' || c == '\x1d' || c == '\x1e' || c == '\x1f'
    || c == '\x85' || c == '\xa0'

/-- Characters removed by the OSD cleaning regex `[\x00-\x1F\x7F]`. -/
def isCtl (c : Char) : Bool := c.toNat ≤ 0x1f || c.toNat == 0x7f

/-- Python `str.strip()`. -/
def pyStrip (cs : List Char) : List Char :=
  ((cs.dropWhile isPyWs).reverse.dropWhile isPyWs).reverse

/-- `OsdParser._clean_osd_text`: remove the control characters, then strip
whitespace. -/
def cleanOsdText (cs : List Char) : List Char :=
  pyStrip (cs.filter (fun c => !(isCtl c)))

/-- Python `str.startswith`: `hasPfx s p` is `s.startswith(p)`. -/
def hasPfx : List Char → List Char → Bool
  | _, [] => true
  | [], _ :: _ => false
  | c :: cs, p :: ps => (c == p) && hasPfx cs ps

/-- Python `str.lower()` on the ASCII range. -/
def pyLower (cs : List Char) : List Char := cs.map Char.toLower

/-- Numeric value of a digit string (what `int`/`float` return on a `\d+`
regex capture). -/
def digVal (cs : List Char) : Nat := cs.foldl (fun a c => a * 10 + (c.toNat - 48)) 0

/-- Python `str.isdigit()` (ASCII digits; the device emits ASCII here). -/
def pyIsdigit (cs : List Char) : Bool := !cs.isEmpty && cs.all Char.isDigit

/-- `(\d+)$`: the whole remainder is a non-empty digit string. -/
def digitsEnd (cs : List Char) : Option (List Char) :=
  if cs ≠ [] ∧ cs.all Char.isDigit then some cs else none

/-- `\s?(\d+)$`: optional whitespace, then digits up to the end of the line.
A whitespace character is never a digit, so the regex backtracking on the
optional `\s?` collapses to this deterministic form. -/
def optWsDigitsEnd (cs : List Char) : Option (List Char) :=
  match cs with
  | c :: rest => if isPyWs c then digitsEnd rest else digitsEnd (c :: rest)
  | [] => none

/-! ## Events and payload values -/

/-- A payload value: Python strings, ints, floats (exact decimals), booleans
and `None` as they occur in the decoder's event dictionaries. -/
inductive PValue where
  | s (v : String)
  | i (v : Int)
  | q (v : ℚ)
  | b (v : Bool)
  | pynone
deriving DecidableEq, Repr

/-- An event payload (`Dict[str, Any]` in the source, order-irrelevant; the
model always constructs a given payload with one fixed key order). -/
abbrev Payload := List (String × PValue)

/-- `(event_name, payload)` as produced by the decoder. -/
abbrev Event := String × Payload

/-! ## OSD data model (`OsdParser`) -/

/-- The screen modes tracked by the OSD parser (`None` = unknown). -/
inductive Mode where
  | nowPlaying
  | menu
  | contextMenu
deriving DecidableEq, Repr

/-- The context dictionary held by `OsdParser`. -/
structure OsdContext where
  screen_mode : Option Mode
  last_update_time : Int
  screen_title : List Char
  cursor_line : Int
  menu_items : List (Int × List Char)
deriving DecidableEq, Repr

/-- `OsdParser._create_default_context`. -/
def createDefaultContext : OsdContext :=
  { screen_mode := none, last_update_time := 0, screen_title := [],
    cursor_line := -1, menu_items := [] }

/-- The whole state of an `OsdParser` instance. -/
structure OsdState where
  context_timeout : Int
  context : OsdContext
  pending_selected_line : Option Nat
deriving DecidableEq, Repr

/-- A freshly constructed `OsdParser(context_timeout_seconds=timeout)`. -/
def initOsdState (timeout : Int) : OsdState :=
  { context_timeout := timeout, context := createDefaultContext,
    pending_selected_line := none }

def NOW_PLAYING_CHAR : Char := '\x01'
def CONTEXT_MENU_CHAR : Char := '\x02'
def SELECTED_ITEM_CHAR : Char := '\x04'
def MENU_ITEM_CHAR : Char := '\x05'
def PLAYING_ITEM_CHAR : Char := '$'
def SPECIAL_MENU_ITEM_CHARS : List Char := ['\x06', '\x0a', '\x0e']

/-- `str.startswith` with a single-character pattern. -/
def headIs (cs : List Char) (c : Char) : Bool :=
  match cs with
  | [] => false
  | d :: _ => d == c

/-- `OsdParser._reset_context_if_timed_out`: clear the screen mode if the
context is stale, and refresh the activity timestamp. -/
def resetContextIfTimedOut (timeout : Int) (ctx : OsdContext) (now : Int) : OsdContext :=
  let ctx1 := if now - ctx.last_update_time > timeout then { ctx with screen_mode := none } else ctx
  { ctx1 with last_update_time := now }

/-- The screen mode derived from a title line's text
(`OsdParser._handle_title_line`, mode fallback). -/
def titleMode (text : List Char) : Option Mode :=
  if pyLower text = "now playing".data then some Mode.nowPlaying
  else if text = "Menu".data then some Mode.contextMenu
  else some Mode.menu

/-- `OsdParser._handle_title_line`. -/
def handleTitleLine (st : OsdState) (now : Int) (text : List Char) : Event × OsdState :=
  let reset :=
    if text ≠ st.context.screen_title then
      ({ createDefaultContext with screen_title := text }, (none : Option Nat))
    else (st.context, st.pending_selected_line)
  let ctx1 := { reset.1 with last_update_time := now }
  let ctx2 := { ctx1 with screen_mode := titleMode text }
  (("osd_title_update", [("text", PValue.s (String.mk text))]),
   { st with context := ctx2, pending_selected_line := reset.2 })

/-- Head match of `\d{2}` returning the digits and the remainder. -/
def twoDigits : List Char → Option (List Char × List Char)
  | a :: b :: rest => if a.isDigit && b.isDigit then some ([a, b], rest) else none
  | _ => none

/-- Suffix of the time pattern after the hour digits: `:\d{2}(?::\d{2})?`,
seconds preferred (regex greediness). Returns the full matched text. -/
def timeTail (hh : List Char) : List Char → Option (List Char)
  | ':' :: a :: b :: rest =>
      if a.isDigit && b.isDigit then
        match rest with
        | ':' :: c :: d :: _ =>
            if c.isDigit && d.isDigit then some (hh ++ [':', a, b, ':', c, d])
            else some (hh ++ [':', a, b])
        | _ => some (hh ++ [':', a, b])
      else none
  | _ => none

/-- Head match of `(\d{1,2}:\d{2}(?::\d{2})?)`: the two-digit hour is tried
first, then the one-digit hour (regex greediness with backtracking). -/
def timeAt : List Char → Option (List Char)
  | a :: b :: rest =>
      if a.isDigit then
        if b.isDigit then
          match timeTail [a, b] rest with
          | some m => some m
          | none => timeTail [a] (b :: rest)
        else timeTail [a] (b :: rest)
      else none
  | _ => none

/-- `re.search` for the time pattern: leftmost match position wins. -/
def searchTime : List Char → Option (List Char)
  | [] => none
  | c :: cs =>
      match timeAt (c :: cs) with
      | some m => some m
      | none => searchTime cs

/-- Head match of `(\d{1,3})%`: up to three digits, greedy with backtracking
against the literal percent sign. -/
def percentAt (cs : List Char) : Option Nat :=
  let ds := (cs.take 3).takeWhile Char.isDigit
  let tryLen : Nat → Option Nat := fun k =>
    if k ≤ ds.length ∧ 1 ≤ k ∧ headIs (cs.drop k) '%' = true then some (digVal (cs.take k))
    else none
  tryLen 3 <|> tryLen 2 <|> tryLen 1

/-- `re.search` for the percent pattern: leftmost match position wins. -/
def searchPercent : List Char → Option Nat
  | [] => none
  | c :: cs =>
      match percentAt (c :: cs) with
      | some v => some v
      | none => searchPercent cs

/-- `OsdParser._handle_now_playing_line`. -/
def handleNowPlayingLine (line : Nat) (raw : List Char) : Option Event :=
  if line = 1 ∧ headIs raw NOW_PLAYING_CHAR = true then
    some ("now_playing_title_update",
      [("text", PValue.s (String.mk (cleanOsdText (raw.drop 1))))])
  else if line = 2 ∧ headIs raw NOW_PLAYING_CHAR = true then
    some ("now_playing_artist_update",
      [("text", PValue.s (String.mk (cleanOsdText (raw.drop 1))))])
  else if line = 3 ∧ headIs raw NOW_PLAYING_CHAR = true ∧ cleanOsdText (raw.drop 1) ≠ [] then
    some ("now_playing_samplerate_update",
      [("text", PValue.s (String.mk (cleanOsdText (raw.drop 1))))])
  else if line = 4 ∧ cleanOsdText (if headIs raw NOW_PLAYING_CHAR then raw.drop 1 else raw) ≠ [] then
    some ("now_playing_album_update",
      [("text", PValue.s (String.mk (cleanOsdText (if headIs raw NOW_PLAYING_CHAR then raw.drop 1 else raw))))])
  else if line = 5 then
    let text := cleanOsdText raw
    let timeVal := searchTime text
    let pctVal := searchPercent text
    if timeVal.isSome || pctVal.isSome then
      some ("play_progress_update",
        [("time", match timeVal with
                  | some t => PValue.s (String.mk t)
                  | none => PValue.pynone),
         ("percent", match pctVal with
                     | some p => PValue.i p
                     | none => PValue.pynone)])
    else none
  else none

/-- `OsdParser._handle_menu_line` (also updates the cursor position in the
context when the line carries the selected-item signifier). -/
def handleMenuLine (ctx : OsdContext) (line : Nat) (raw : List Char) :
    Option Event × OsdContext :=
  let is_selected := headIs raw SELECTED_ITEM_CHAR
  let is_menu_item := headIs raw MENU_ITEM_CHAR || headIs raw CONTEXT_MENU_CHAR ||
    (match raw with
     | c :: _ => SPECIAL_MENU_ITEM_CHARS.contains c
     | [] => false)
  let text := cleanOsdText (raw.drop 1)
  let ctx1 := if is_selected then { ctx with cursor_line := (line : Int) } else ctx
  if is_menu_item || is_selected then
    (some ("osd_menu_item_update",
       [("line", PValue.i (line : Int)), ("text", PValue.s (String.mk text)),
        ("is_selected", PValue.b is_selected)]), ctx1)
  else (none, ctx1)

/-- `OsdParser._handle_context_menu_line`: selection is inverted (absence of
the context-menu signifier means selected); empty text emits nothing. -/
def handleContextMenuLine (line : Nat) (raw : List Char) : Option Event :=
  if 1 ≤ line ∧ line ≤ 7 then
    let is_selected := !headIs raw CONTEXT_MENU_CHAR
    let text := cleanOsdText raw
    if text ≠ [] then
      some ("osd_context_menu_item_update",
        [("line", PValue.i (line : Int)), ("text", PValue.s (String.mk text)),
         ("is_selected", PValue.b is_selected)])
    else none
  else none

/-- The event name used for a reconstructed fragment, chosen from the current
screen mode (`OsdParser.parse`, fragment path). -/
def fragEventName (m : Option Mode) : String :=
  if m = some Mode.contextMenu then "osd_context_menu_item_update"
  else "osd_menu_item_update"

/-- `^NSE(\d)(.*)$` with `re.DOTALL`. -/
def matchNse (cs : List Char) : Option (Nat × List Char) :=
  match cs with
  | 'N' :: 'S' :: 'E' :: c :: rest =>
      if c.isDigit then some (c.toNat - 48, rest) else none
  | _ => none

/-- The mode inferred from a content line's first byte when no title has yet
established one (`OsdParser.parse`, fallback detection). -/
def inferMode (raw : List Char) : Option Mode :=
  if headIs raw NOW_PLAYING_CHAR then some Mode.nowPlaying
  else if headIs raw MENU_ITEM_CHAR || headIs raw SELECTED_ITEM_CHAR then some Mode.menu
  else if headIs raw CONTEXT_MENU_CHAR || headIs raw '\n' then some Mode.contextMenu
  else none

/-- `OsdParser.parse`: the stateful OSD entry point, on character lists. -/
def osdParseCore (st : OsdState) (now : Int) (response : List Char) :
    Option Event × OsdState :=
  match st.pending_selected_line, hasPfx response "NSE".data with
  | some line, false =>
      -- Stateful fragment handling: consume the pending slot.
      let text := cleanOsdText response
      (some (fragEventName st.context.screen_mode,
         [("line", PValue.i (line : Int)), ("text", PValue.s (String.mk text)),
          ("is_selected", PValue.b true)]),
       { st with pending_selected_line := none })
  | _, _ =>
    match matchNse response with
    | none => (none, st)
    | some (line, raw) =>
      let st0 := { st with context := resetContextIfTimedOut st.context_timeout st.context now }
      if line = 0 then
        let text := cleanOsdText raw
        let r := handleTitleLine st0 now text
        (some r.1, r.2)
      else if line = 8 then
        let text := cleanOsdText (raw.dropWhile (fun c => c == PLAYING_ITEM_CHAR))
        if text ≠ [] then
          (some ("station_info_update", [("text", PValue.s (String.mk text))]), st0)
        else (none, st0)
      else if (st0.context.screen_mode = some Mode.menu ∨
               st0.context.screen_mode = some Mode.contextMenu) ∧ pyStrip raw = [] then
        (none, { st0 with pending_selected_line := some line })
      else
        let mode1 :=
          match st0.context.screen_mode with
          | some m => some m
          | none => inferMode raw
        let st1 := { st0 with context := { st0.context with screen_mode := mode1 } }
        match mode1 with
        | some Mode.nowPlaying => (handleNowPlayingLine line raw, st1)
        | some Mode.menu =>
            let r := handleMenuLine st1.context line raw
            (r.1, { st1 with context := r.2 })
        | some Mode.contextMenu => (handleContextMenuLine line raw, st1)
        | none => (none, st1)

/-- `OsdParser.parse` on a string. -/
def osdParse (st : OsdState) (now : Int) (response : String) :
    Option Event × OsdState :=
  osdParseCore st now response.data

/-! ## Value sub-parsers (`response_parser.py`, module level) -/

/-- `_parse_value_with_half_step`: a 3-digit capture is a half-step value
(divide by 10); any other length is taken as-is. -/
def parseValueWithHalfStep (raw : List Char) : ℚ :=
  if raw.length = 3 then (digVal raw : ℚ) / 10 else (digVal raw : ℚ)

/-- `_parse_volume`: `MVMAX` (checked first, more specific) and `MV`. -/
def parseVolume (response : List Char) : Option Event :=
  match (if hasPfx response "MVMAX".data then optWsDigitsEnd (response.drop 5) else none) with
  | some ds => some ("max_volume_update", [("value", PValue.q (parseValueWithHalfStep ds))])
  | none =>
    match (if hasPfx response "MV".data then digitsEnd (response.drop 2) else none) with
    | some ds => some ("volume_update", [("value", PValue.q (parseValueWithHalfStep ds))])
    | none => none

/-- `_create_on_off_parser`. -/
def onOffParse (pfx onVal offVal : String) (response : List Char) : Option Payload :=
  if hasPfx response pfx.data then
    let statePart := response.drop pfx.data.length
    if statePart = onVal.data then some [("state", PValue.s "on")]
    else if statePart = offVal.data then
      some [("state", PValue.s (if offVal = "STANDBY" then "standby" else "off"))]
    else none
  else none

/-- Whitespace element of a multi-state pattern: none, `\s?`, or `\s`. -/
inductive WsKind where
  | noWs
  | optWs
  | reqWs

/-- Match the whitespace element at the head of the remainder.  For `\s?` the
states that follow never begin with whitespace, so the regex backtracking
collapses to consuming the space when present. -/
def afterWs (k : WsKind) (cs : List Char) : Option (List Char) :=
  match k, cs with
  | WsKind.noWs, cs => some cs
  | WsKind.optWs, c :: rest => if isPyWs c then some rest else some (c :: rest)
  | WsKind.optWs, [] => some []
  | WsKind.reqWs, c :: rest => if isPyWs c then some rest else none
  | WsKind.reqWs, [] => none

/-- The state-normalization map application of `_create_multi_state_parser`. -/
def normState (nmap : List (String × String)) (stv : String) : String :=
  match nmap.find? (fun p => p.1 == stv) with
  | some p => p.2
  | none => stv

/-- `_create_multi_state_parser` for patterns of the shape
`^PFX\s?(A|B|...)$` (ws as given): the whole remainder is one of the
alternatives; the captured state is lowercased then normalized. -/
def multiStateAlts (pfx : String) (k : WsKind) (alts : List String)
    (nmap : List (String × String)) (response : List Char) : Option Payload :=
  if hasPfx response pfx.data then
    match afterWs k (response.drop pfx.data.length) with
    | some rest =>
        match alts.find? (fun a => rest == a.data) with
        | some a => some [("state", PValue.s (normState nmap (String.mk (pyLower a.data))))]
        | none => none
    | none => none
  else none

/-- `_create_multi_state_parser` for `^PFX(A|B|...)\s?(.*)$`: the first
alternative (in pattern order) that starts the remainder is captured; the
trailing `\s?(.*)$` always matches. -/
def multiStateAltsRest (pfx : String) (alts : List String) (response : List Char) :
    Option Payload :=
  if hasPfx response pfx.data then
    match alts.find? (fun a => hasPfx (response.drop pfx.data.length) a.data) with
    | some a => some [("state", PValue.s (String.mk (pyLower a.data)))]
    | none => none
  else none

/-- `_create_multi_state_parser` for `^PFX\s(.*)$` (`reqSep = true`) and for
patterns whose separator is part of the literal text, `^PFX(.*)$`
(`reqSep = false`): the rest of the line is the captured state, lowercased. -/
def multiStateRest (pfx : String) (reqSep : Bool) (response : List Char) :
    Option Payload :=
  if hasPfx response pfx.data then
    let rest := response.drop pfx.data.length
    if reqSep then
      match rest with
      | c :: cs => if isPyWs c then some [("state", PValue.s (String.mk (pyLower cs)))] else none
      | [] => none
    else some [("state", PValue.s (String.mk (pyLower rest)))]
  else none

/-- `_parse_dialog_level`. -/
def parseDialogLevel (response : List Char) : Option Payload :=
  if response = "PSDIL OFF".data ∨ response = "PSDILOFF".data then
    some [("state", PValue.s "off")]
  else if response = "PSDIL ON".data ∨ response = "PSDILON".data then
    some [("state", PValue.s "on")]
  else if hasPfx response "PSDIL".data then
    match optWsDigitsEnd (response.drop 5) with
    | some ds => some [("value", PValue.q (parseValueWithHalfStep ds))]
    | none => none
  else none

/-- `_parse_picture_mode`. -/
def parsePictureMode (response : List Char) : Option Payload :=
  let modeMap : List (String × String) :=
    [("PVOFF", "off"), ("PVSTD", "standard"), ("PVMOV", "movie"), ("PVVVD", "vivid"),
     ("PVSTM", "stream"), ("PVCTM", "custom"), ("PVDAY", "isf_day"), ("PVNGT", "isf_night")]
  match modeMap.find? (fun p => response == p.1.data) with
  | some p => some [("state", PValue.s p.2)]
  | none => none

/-- `_parse_center_gain`: `^PSCEG\s?(\d{2})$`, value divided by 10. -/
def parseCenterGain (response : List Char) : Option Payload :=
  if hasPfx response "PSCEG".data then
    match afterWs WsKind.optWs (response.drop 5) with
    | some rest =>
        match rest with
        | [a, b] =>
            if a.isDigit ∧ b.isDigit then
              some [("value", PValue.q ((digVal [a, b] : ℚ) / 10))]
            else none
        | _ => none
    | none => none
  else none

/-- `_parse_system_lock`: `^(SYREMOTE|SYPANEL(?:\+V)?) LOCK (ON|OFF)$`. -/
def parseSystemLock (response : List Char) : Option Event :=
  let lockType : Option (String × List Char) :=
    if hasPfx response "SYREMOTE".data then some ("SYREMOTE", response.drop 8)
    else if hasPfx response "SYPANEL+V".data then some ("SYPANEL+V", response.drop 9)
    else if hasPfx response "SYPANEL".data then some ("SYPANEL", response.drop 7)
    else none
  match lockType with
  | some (t, rest) =>
      let stv := if rest = " LOCK ON".data then some "on"
                 else if rest = " LOCK OFF".data then some "off"
                 else none
      match stv with
      | some v =>
          some ((if t = "SYREMOTE" then "remote_lock_update" else "panel_lock_update"),
                [("state", PValue.s v)])
      | none => none
  | none => none

/-- `_parse_sound_mode`. -/
def parseSoundMode (response : List Char) : Option Payload :=
  if hasPfx response "MS".data then
    some [("mode", PValue.s (String.mk (response.drop 2)))]
  else none

/-- `_parse_smart_select`. -/
def parseSmartSelect (response : List Char) : Option Payload :=
  if hasPfx response "MSSMART".data then
    some [("selection", PValue.s (String.mk response))]
  else none

/-- Python `s.split(' ', 1)[1]`: the characters after the first space. -/
def afterFirstSpace (cs : List Char) : List Char :=
  (cs.dropWhile (fun c => c != ' ')).drop 1

/-- `_parse_play_state`. -/
def parsePlayState (response : List Char) : Option Payload :=
  if hasPfx response "NSF ".data ∨ hasPfx response "CRPLYSTS ".data then
    some [("state", PValue.s (String.mk (afterFirstSpace response)))]
  else none

/-- `_parse_sleep_timer`. -/
def parseSleepTimer (response : List Char) : Option Payload :=
  if response = "SLPOFF".data then some [("state", PValue.s "off")]
  else
    match (if hasPfx response "SLP".data then digitsEnd (response.drop 3) else none) with
    | some ds =>
        if digVal ds = 0 then some [("state", PValue.s "off")]
        else some [("state", PValue.s "on"), ("minutes", PValue.i (digVal ds : Int))]
    | none => none

/-- Two-digit zero-padded decimal (the fractional part of an `:.2f` format). -/
def pad2 (n : Nat) : List Char :=
  if n < 10 then '0' :: Nat.toDigits 10 n else Nat.toDigits 10 n

/-- `f'{n/100:.2f}'` for the frequency value: exact for device-scale values. -/
def formatFreq2 (n : Nat) : String :=
  toString (n / 100) ++ "." ++ String.mk (pad2 (n % 100))

/-- `_parse_tuner_status`.  `int()` strips surrounding whitespace, and in the
numeric branch the stripped text is all digits (the `isdigit` check passed). -/
def parseTunerStatus (response : List Char) : Option Event :=
  if hasPfx response "TMAN".data then
    some ("tuner_mode_update", [("mode", PValue.s (String.mk (response.drop 4)))])
  else if hasPfx response "TFAN".data then
    let freqStr := response.drop 4
    if !(pyIsdigit (pyStrip freqStr)) then
      some ("tuner_name_update", [("name", PValue.s (String.mk (pyStrip freqStr)))])
    else if 4 ≤ freqStr.length ∧ ¬ freqStr.contains '.' then
      some ("tuner_frequency_update",
        [("frequency", PValue.s (formatFreq2 (digVal (pyStrip freqStr))))])
    else
      some ("tuner_frequency_update",
        [("frequency", PValue.s (toString (digVal (pyStrip freqStr))))])
  else if hasPfx response "TPAN".data then
    some ("tuner_preset_update", [("preset", PValue.s (String.mk (response.drop 4)))])
  else none

/-- `_parse_video_select`. -/
def parseVideoSelect (response : List Char) : Option Event :=
  if response = "SVON".data then some ("video_select_mode_update", [("state", PValue.s "on")])
  else if response = "SVOFF".data then some ("video_select_mode_update", [("state", PValue.s "off")])
  else if hasPfx response "SV".data then
    let src := response.drop 2
    if src ≠ [] ∧ src ≠ ['?'] then
      some ("video_select_source_update", [("source", PValue.s (String.mk src))])
    else none
  else none

/-- `_parse_trigger`: `^TR([12])\s(ON|OFF)$`. -/
def parseTrigger (response : List Char) : Option Event :=
  match response with
  | 'T' :: 'R' :: d :: c :: rest =>
      if (d = '1' ∨ d = '2') ∧ isPyWs c = true then
        if rest = "ON".data then
          some ("trigger_" ++ String.mk [d] ++ "_update", [("state", PValue.s "on")])
        else if rest = "OFF".data then
          some ("trigger_" ++ String.mk [d] ++ "_update", [("state", PValue.s "off")])
        else none
      else none
  | _ => none

/-- `[A-Z]`. -/
def isUpperAZ (c : Char) : Bool := decide ('A' ≤ c) && decide (c ≤ 'Z')

/-- `^([A-Z/]+)$`: the whole remainder, non-empty, of uppercase letters and
slashes. -/
def azSlashEnd (cs : List Char) : Option (List Char) :=
  if cs ≠ [] ∧ cs.all (fun c => isUpperAZ c || c == '/') then some cs else none

/-- `_parse_zone2`: power, mute, volume (more specific) then input source. -/
def parseZone2 (response : List Char) : Option Event :=
  if response = "Z2ON".data ∨ response = "Z2OFF".data then
    some ("zone2_power_update",
      [("state", PValue.s (if response = "Z2ON".data then "on" else "off"))])
  else if response = "Z2MUON".data ∨ response = "Z2MUOFF".data then
    some ("zone2_mute_update",
      [("state", PValue.s (if response = "Z2MUON".data then "on" else "off"))])
  else
    match (if hasPfx response "Z2".data then digitsEnd (response.drop 2) else none) with
    | some ds => some ("zone2_volume_update", [("value", PValue.q (parseValueWithHalfStep ds))])
    | none =>
      match (if hasPfx response "Z2".data then azSlashEnd (response.drop 2) else none) with
      | some src => some ("zone2_input_source_update", [("source", PValue.s (String.mk src))])
      | none => none

/-- `_parse_reference_level`: `^PSREFLEV\s(\d+)$`. -/
def parseReferenceLevel (response : List Char) : Option Payload :=
  if hasPfx response "PSREFLEV".data then
    match response.drop 8 with
    | c :: rest =>
        if isPyWs c then
          match digitsEnd rest with
          | some ds => some [("value", PValue.i (digVal ds : Int))]
          | none => none
        else none
    | [] => none
  else none

/-- `_parse_subwoofer_level_adjust`: value responses are on a 50-centred
scale. -/
def parseSubwooferLevelAdjust (response : List Char) : Option Payload :=
  if response = "PSSWL OFF".data ∨ response = "PSSWLOFF".data then
    some [("state", PValue.s "off")]
  else if response = "PSSWL ON".data ∨ response = "PSSWLON".data then
    some [("state", PValue.s "on")]
  else if hasPfx response "PSSWL".data then
    match optWsDigitsEnd (response.drop 5) with
    | some ds => some [("value", PValue.q (parseValueWithHalfStep ds - 50))]
    | none => none
  else none

/-- `_parse_channel_level`: `^CV([A-Z]{1,3})\s?(\d+)$` with the greedy 3-to-1
backtracking of the channel-name group, values on a 50-centred scale. -/
def parseChannelLevel (response : List Char) : Option Event :=
  if response = "CVEND".data then some ("channel_level_list_end", [])
  else if hasPfx response "CV".data then
    let cs := response.drop 2
    let tryLen : Nat → Option (List Char × List Char) := fun k =>
      if (cs.take k).length = k ∧ (cs.take k).all isUpperAZ then
        match optWsDigitsEnd (cs.drop k) with
        | some ds => some (cs.take k, ds)
        | none => none
      else none
    match tryLen 3 <|> tryLen 2 <|> tryLen 1 with
    | some (ch, ds) =>
        some ("channel_level_update",
          [("channel", PValue.s (String.mk ch)),
           ("value", PValue.q (parseValueWithHalfStep ds - 50))])
    | none => none
  else none

/-- `_parse_input_source`. -/
def parseInputSource (response : List Char) : Option Payload :=
  if hasPfx response "SI".data then
    some [("source", PValue.s (String.mk (response.drop 2)))]
  else none

/-- `_create_numeric_parser`: `^PFX\s?(\d+)$` with a raw integer level. -/
def numericLevelParse (pfx : String) (response : List Char) : Option Payload :=
  if hasPfx response pfx.data then
    match optWsDigitsEnd (response.drop pfx.data.length) with
    | some ds => some [("level", PValue.i (digVal ds : Int))]
    | none => none
  else none

def parseMute := onOffParse "MU" "ON" "OFF"
def parseSubwooferStatus := onOffParse "PSSWR " "ON" "OFF"
def parseCinemaEq := onOffParse "PSCINEQ" "ON" "OFF"
def parseDynamicEq := onOffParse "PSDYNEQ" "ON" "OFF"
def parseGraphicEq := onOffParse "PSGEQ" "ON" "OFF"
def parseToneControl := onOffParse "PSTONE CTRL " "ON" "OFF"
def parsePower := onOffParse "PW" "ON" "STANDBY"
def parseNseExtended := onOffParse "NSEXT " "ON" "OFF"
def parseMdax :=
  multiStateAlts "PSMDAX" WsKind.optWs ["OFF", "LOW", "MED", "HI"]
    [("med", "medium"), ("hi", "high")]
def parseDynamicVolume :=
  multiStateAlts "PSDYNVOL" WsKind.optWs ["OFF", "LIT", "MED", "HEV"]
    [("lit", "light"), ("med", "medium"), ("hev", "heavy")]
def parseDrc :=
  multiStateAlts "PSDRC" WsKind.reqWs ["OFF", "LOW", "MID", "HI"]
    [("mid", "medium"), ("hi", "high")]
def parseEcoMode := multiStateAlts "PSEC" WsKind.optWs ["ON", "AUTO", "OFF"] []
def parseAudysseyDynComp := multiStateAlts "PSDCA" WsKind.optWs ["AUTO", "OFF"] []
def parseSoundDetail := multiStateAlts "SD" WsKind.optWs ["AUTO", "ANALOG", "HDMI", "ARC"] []
def parseDigitalControl := multiStateAlts "DC" WsKind.noWs ["AUTO", "ANALOG", "HDMI", "DIGITAL"] []
def parsePandoraLogin := multiStateAltsRest "NSPAN" ["USN", "PAS", "OK", "NG", "LOGIN", "LOGOUT"]
def parseSignalInfo := multiStateRest "SSINFAISFSV" true
def parseSsvMap := multiStateRest "SSVCTZMAPON" true
def parseParameterMode := multiStateRest "PSMODE:" false
def parseSoundSubmode := multiStateRest "SSSMG" true

/-! ## Master dispatch table (`PARSER_CONFIG` and `parse_response`) -/

/-- A dispatch-table sub-parser: either returns the full `(event, payload)`
tuple (table entries with event name `None`), or returns just a payload to be
paired with the entry's fixed event name. -/
inductive TParser where
  | full (f : List Char → Option Event)
  | named (name : String) (f : List Char → Option Payload)

/-- One `(prefix, parser, event-name-or-None)` entry of the dispatch table. -/
structure TableEntry where
  pfx : String
  run : TParser

/-- Applying a matched entry: a `full` parser's result is returned as-is; a
`named` parser's payload is paired with the fixed event name, with Python's
falsy check (`if data:`) treating an empty payload like `None`. -/
def applyEntry (e : TableEntry) (response : List Char) : Option Event :=
  match e.run with
  | TParser.full f => f response
  | TParser.named nm f =>
      match f response with
      | some d => if d = [] then none else some (nm, d)
      | none => none

/-- `PARSER_CONFIG`: the ordered dispatch table; specific prefixes come
before their shorter substrings (`MVMAX` before `MV`, `MSSMART` before
`MS`). -/
def PARSER_CONFIG : List TableEntry := [
  ⟨"MVMAX", TParser.full parseVolume⟩,
  ⟨"MV", TParser.full parseVolume⟩,
  ⟨"MU", TParser.named "mute_update" parseMute⟩,
  ⟨"PSDIL", TParser.named "dialog_level_update" parseDialogLevel⟩,
  ⟨"PSMDAX", TParser.named "mdax_update" parseMdax⟩,
  ⟨"PSCINEQ", TParser.named "cinema_eq_update" parseCinemaEq⟩,
  ⟨"PSDYNEQ", TParser.named "dynamic_eq_update" parseDynamicEq⟩,
  ⟨"PSDYNVOL", TParser.named "dynamic_volume_update" parseDynamicVolume⟩,
  ⟨"PV", TParser.named "picture_mode_update" parsePictureMode⟩,
  ⟨"PW", TParser.named "power_update" parsePower⟩,
  ⟨"SI", TParser.named "input_source_update" parseInputSource⟩,
  ⟨"CV", TParser.full parseChannelLevel⟩,
  ⟨"Z2", TParser.full parseZone2⟩,
  ⟨"PSREFLEV", TParser.named "reference_level_update" parseReferenceLevel⟩,
  ⟨"PSCEG", TParser.named "center_gain_update" parseCenterGain⟩,
  ⟨"PSSWL", TParser.named "sub_level_adjust_update" parseSubwooferLevelAdjust⟩,
  ⟨"PSSWR", TParser.named "subwoofer_status_update" parseSubwooferStatus⟩,
  ⟨"PSGEQ", TParser.named "graphic_eq_update" parseGraphicEq⟩,
  ⟨"PSTONE CTRL ", TParser.named "tone_control_update" parseToneControl⟩,
  ⟨"PSDRC", TParser.named "drc_update" parseDrc⟩,
  ⟨"PSEC", TParser.named "eco_mode_update" parseEcoMode⟩,
  ⟨"SYREMOTE LOCK", TParser.full parseSystemLock⟩,
  ⟨"SYPANEL LOCK", TParser.full parseSystemLock⟩,
  ⟨"PSDCA", TParser.named "audyssey_dyn_comp_update" parseAudysseyDynComp⟩,
  ⟨"DC", TParser.named "digital_control_update" parseDigitalControl⟩,
  ⟨"NSEXT", TParser.named "nse_extended_update" parseNseExtended⟩,
  ⟨"NSPAN", TParser.named "pandora_login_update" parsePandoraLogin⟩,
  ⟨"SSINFAISFSV", TParser.named "signal_info_update" parseSignalInfo⟩,
  ⟨"SSVCTZMAPON", TParser.named "ssv_map_update" parseSsvMap⟩,
  ⟨"SV", TParser.full parseVideoSelect⟩,
  ⟨"SD", TParser.named "sound_detail_update" parseSoundDetail⟩,
  ⟨"TR", TParser.full parseTrigger⟩,
  ⟨"PSLFE", TParser.named "lfe_level_update" (numericLevelParse "PSLFE")⟩,
  ⟨"PSBAS", TParser.named "bass_level_update" (numericLevelParse "PSBAS")⟩,
  ⟨"PSTRE", TParser.named "treble_level_update" (numericLevelParse "PSTRE")⟩,
  ⟨"PSMODE", TParser.named "parameter_mode_update" parseParameterMode⟩,
  ⟨"SSSMG", TParser.named "sound_submode_update" parseSoundSubmode⟩,
  ⟨"ZMON", TParser.named "main_zone_power_update" (fun _ => some [("state", PValue.s "on")])⟩,
  ⟨"ZMOFF", TParser.named "main_zone_power_update" (fun _ => some [("state", PValue.s "off")])⟩,
  ⟨"SLP", TParser.named "sleep_timer_update" parseSleepTimer⟩,
  ⟨"TM", TParser.full parseTunerStatus⟩,
  ⟨"TF", TParser.full parseTunerStatus⟩,
  ⟨"TP", TParser.full parseTunerStatus⟩,
  ⟨"MSSMART", TParser.named "smart_select_update" parseSmartSelect⟩,
  ⟨"MS", TParser.named "sound_mode_update" parseSoundMode⟩,
  ⟨"NSF ", TParser.named "play_state_update" parsePlayState⟩,
  ⟨"CRPLYSTS ", TParser.named "play_state_update" parsePlayState⟩]

/-- The dispatch loop of `parse_response`: the first entry whose prefix starts
the line is applied and the loop returns, whatever that entry's result. -/
def dispatchTable : List TableEntry → List Char → Option Event
  | [], _ => none
  | e :: rest, r => if hasPfx r e.pfx.data then applyEntry e r else dispatchTable rest r

/-- `parse_response`: the stateful OSD parser gets first refusal on every
line; only when it produces no event is the dispatch table consulted. -/
def parseResponseCore (st : OsdState) (now : Int) (response : List Char) :
    Option Event × OsdState :=
  match osdParseCore st now response with
  | (some ev, st1) => (some ev, st1)
  | (none, st1) => (dispatchTable PARSER_CONFIG response, st1)

/-- `parse_response` on a string. -/
def parseResponse (st : OsdState) (now : Int) (response : String) :
    Option Event × OsdState :=
  parseResponseCore st now response.data

/-! ## Basic lemmas about the embedding -/

lemma hasPfx_exists (p : List Char) : ∀ cs : List Char, hasPfx cs p = true → ∃ t, cs = p ++ t := by
  induction p with
  | nil => intro cs _; exact ⟨cs, rfl⟩
  | cons x xs ih =>
      intro cs h
      cases cs with
      | nil => simp [hasPfx] at h
      | cons c cs =>
          rw [hasPfx, Bool.and_eq_true, beq_iff_eq] at h
          obtain ⟨t, ht⟩ := ih cs h.2
          exact ⟨t, by rw [h.1, ht]; rfl⟩

@[simp] lemma reset_screen_title (t : Int) (ctx : OsdContext) (now : Int) :
    (resetContextIfTimedOut t ctx now).screen_title = ctx.screen_title := by
  rw [resetContextIfTimedOut]; split <;> rfl

@[simp] lemma reset_cursor_line (t : Int) (ctx : OsdContext) (now : Int) :
    (resetContextIfTimedOut t ctx now).cursor_line = ctx.cursor_line := by
  rw [resetContextIfTimedOut]; split <;> rfl

@[simp] lemma reset_menu_items (t : Int) (ctx : OsdContext) (now : Int) :
    (resetContextIfTimedOut t ctx now).menu_items = ctx.menu_items := by
  rw [resetContextIfTimedOut]; split <;> rfl

@[simp] lemma reset_last_update (t : Int) (ctx : OsdContext) (now : Int) :
    (resetContextIfTimedOut t ctx now).last_update_time = now := by
  rw [resetContextIfTimedOut]

lemma reset_of_not_timed_out (t : Int) (ctx : OsdContext) (now : Int)
    (h : ¬ now - ctx.last_update_time > t) :
    resetContextIfTimedOut t ctx now = { ctx with last_update_time := now } := by
  rw [resetContextIfTimedOut, if_neg h]

/-- The fragment-consumption path of `OsdParser.parse`: with a pending slot
buffered and a line that does not start with `NSE`, the line is consumed as
that slot's text and the pending marker is cleared. -/
lemma fragmentConsume (st : OsdState) (now : Int) (cs : List Char) (n : Nat)
    (hp : st.pending_selected_line = some n) (hn : hasPfx cs "NSE".data = false) :
    osdParseCore st now cs =
      (some (fragEventName st.context.screen_mode,
         [("line", PValue.i (n : Int)), ("text", PValue.s (String.mk (cleanOsdText cs))),
          ("is_selected", PValue.b true)]),
       { st with pending_selected_line := none }) := by
  rw [osdParseCore, hp, hn]

/-! ## Claim C1: the pending-fragment marker -/

def c1Run1 : Option Event × OsdState := osdParseCore (initOsdState 5) 1 "NSE0Setup Menu".data
def c1Run2 : Option Event × OsdState := osdParseCore c1Run1.2 2 "NSE2".data
def c1Run3 : Option Event × OsdState := osdParseCore c1Run2.2 3 "NSE3\x05Item".data

/-- Claim C1 as stated is false: with `pending_selected_line = some 2` set
(after "NSE0Setup Menu" then "NSE2"), the very next processed line
"NSE3\x05Item" — which starts with `NSE` — is not consumed as slot 2's text:
it is parsed as an ordinary slot-3 menu line with `is_selected` false, and the
pending marker is still set afterwards. -/
theorem c1_pending_counterexample :
    c1Run2.2.pending_selected_line = some 2 ∧
    hasPfx "NSE3\x05Item".data "NSE".data = true ∧
    c1Run3.1 = some ("osd_menu_item_update",
      [("line", PValue.i 3), ("text", PValue.s "Item"), ("is_selected", PValue.b false)]) ∧
    c1Run3.2.pending_selected_line = some 2 := by decide

/-- Claim C1, amended: once `pending_selected_line` is set to slot `n`, the
next processed line that does not start with `NSE` — whatever its content —
is consumed as slot `n`'s text (a menu or context-menu item update with
`is_selected` true, by the current screen mode) and the pending marker is
cleared, so no second line can be consumed by the same marker; a line that
does start with `NSE` is instead processed by the normal slot logic. -/
theorem c1_pending_fragment (st : OsdState) (now : Int) (cs : List Char) (n : Nat)
    (hp : st.pending_selected_line = some n) (hn : hasPfx cs "NSE".data = false) :
    osdParseCore st now cs =
      (some (fragEventName st.context.screen_mode,
         [("line", PValue.i (n : Int)), ("text", PValue.s (String.mk (cleanOsdText cs))),
          ("is_selected", PValue.b true)]),
       { st with pending_selected_line := none }) :=
  fragmentConsume st now cs n hp hn

/-- Concrete instantiation of `c1_pending_fragment`. -/
theorem c1_pending_fragment_witness :
    osdParseCore ⟨5, ⟨some Mode.menu, 0, "Setup Menu".data, -1, []⟩, some 4⟩ 2 "Hello".data =
      (some ("osd_menu_item_update",
        [("line", PValue.i 4), ("text", PValue.s "Hello"), ("is_selected", PValue.b true)]),
       ⟨5, ⟨some Mode.menu, 0, "Setup Menu".data, -1, []⟩, none⟩) := by
  exact c1_pending_fragment ⟨5, ⟨some Mode.menu, 0, "Setup Menu".data, -1, []⟩, some 4⟩ 2
    "Hello".data 4 rfl (by decide)

/-! ## Claim C9: frame effect of the inactivity-timeout reset -/

/-- Claim C9: the inactivity-timeout reset changes only the screen mode
(cleared to unknown) and the last-update timestamp (refreshed); the stored
title, cursor line, menu items — and, being outside the context record, the
pending fragment marker — keep their values.  In particular a fragment
buffered before the timeout is still consumed by the next non-`NSE` line,
however late it arrives. -/
theorem c9_timeout_reset_effect :
    (∀ (t : Int) (ctx : OsdContext) (now : Int), now - ctx.last_update_time > t →
       resetContextIfTimedOut t ctx now =
         { ctx with screen_mode := none, last_update_time := now }) ∧
    (∀ (st : OsdState) (n : Nat) (now : Int) (cs : List Char),
       st.pending_selected_line = some n →
       now - st.context.last_update_time > st.context_timeout →
       hasPfx cs "NSE".data = false →
       osdParseCore st now cs =
         (some (fragEventName st.context.screen_mode,
            [("line", PValue.i (n : Int)), ("text", PValue.s (String.mk (cleanOsdText cs))),
             ("is_selected", PValue.b true)]),
          { st with pending_selected_line := none })) := by
  constructor
  · intro t ctx now h
    rw [resetContextIfTimedOut, if_pos h]
  · intro st n now cs hp _ hn
    exact fragmentConsume st now cs n hp hn

/-- Concrete instantiation of `c9_timeout_reset_effect`. -/
theorem c9_timeout_reset_effect_witness :
    resetContextIfTimedOut 5 ⟨some Mode.menu, 0, "Setup Menu".data, 2, []⟩ 9 =
      ⟨none, 9, "Setup Menu".data, 2, []⟩ ∧
    osdParseCore ⟨5, ⟨some Mode.menu, 0, "Setup Menu".data, 2, []⟩, some 3⟩ 99 "Late".data =
      (some ("osd_menu_item_update",
        [("line", PValue.i 3), ("text", PValue.s "Late"), ("is_selected", PValue.b true)]),
       ⟨5, ⟨some Mode.menu, 0, "Setup Menu".data, 2, []⟩, none⟩) := by
  constructor
  · exact c9_timeout_reset_effect.1 5 ⟨some Mode.menu, 0, "Setup Menu".data, 2, []⟩ 9 (by decide)
  · exact c9_timeout_reset_effect.2 ⟨5, ⟨some Mode.menu, 0, "Setup Menu".data, 2, []⟩, some 3⟩ 3 99
      "Late".data rfl (by decide) (by decide)

/-! ## Claim C4: re-processing an unchanged title line -/

def c4Run1 : Option Event × OsdState := osdParseCore (initOsdState 5) 1 "NSE1\x01x".data
def c4Run2 : Option Event × OsdState := osdParseCore c4Run1.2 2 "NSE0".data

/-- Claim C4 as stated is false: after a content line establishes
`now_playing` by fallback inference (title still the default empty string), a
slot-0 title line whose cleaned text equals that stored empty title does not
leave the whole context unchanged except for the timestamp — the screen mode
is re-derived from the title text and flips to `menu`. -/
theorem c4_title_counterexample :
    c4Run1.2.context.screen_mode = some Mode.nowPlaying ∧
    cleanOsdText [] = c4Run1.2.context.screen_title ∧
    c4Run2.1 = some ("osd_title_update", [("text", PValue.s "")]) ∧
    c4Run2.2.context.screen_mode = some Mode.menu ∧
    c4Run2.2.context.screen_mode ≠ c4Run1.2.context.screen_mode := by decide

/-- Claim C4, amended: a slot-0 title line whose cleaned text equals the
stored `screen_title` does not reset the context and re-emits no prior items:
`screen_title`, `cursor_line`, `menu_items` and the pending fragment marker
are all preserved, the timestamp advances, and the screen mode is re-derived
from the (unchanged) title text — a no-op whenever the stored mode was itself
derived from that title, but a visible change when it had been set by
fallback inference under the default empty title. -/
theorem c4_unchanged_title (st : OsdState) (now : Int) (raw : List Char)
    (h : cleanOsdText raw = st.context.screen_title) :
    osdParseCore st now ('N' :: 'S' :: 'E' :: '0' :: raw) =
      (some ("osd_title_update", [("text", PValue.s (String.mk st.context.screen_title))]),
       { st with context := { st.context with
                               last_update_time := now
                               screen_mode := titleMode st.context.screen_title } }) := by
  have hpfx : hasPfx ('N' :: 'S' :: 'E' :: '0' :: raw) "NSE".data = true := rfl
  have hnse : matchNse ('N' :: 'S' :: 'E' :: '0' :: raw) = some (0, raw) := rfl
  have hr : resetContextIfTimedOut st.context_timeout st.context now =
      { st.context with
          screen_mode := (if now - st.context.last_update_time > st.context_timeout then none
                          else st.context.screen_mode)
          last_update_time := now } := by
    rw [resetContextIfTimedOut]; split <;> rfl
  cases hsp : st.pending_selected_line with
  | none =>
      rw [osdParseCore, hsp, hpfx, hnse]
      simp only [if_pos rfl, h, hr, handleTitleLine, hsp]
      simp
  | some k =>
      rw [osdParseCore, hsp, hpfx, hnse]
      simp only [if_pos rfl, h, hr, handleTitleLine, hsp]
      simp

/-- Concrete instantiation of `c4_unchanged_title`: re-processing the title
"Setup Menu" in a state whose mode was derived from that very title changes
nothing but the timestamp. -/
theorem c4_unchanged_title_witness :
    osdParseCore ⟨5, ⟨some Mode.menu, 1, "Setup Menu".data, 3, []⟩, some 6⟩ 2
        "NSE0Setup Menu".data =
      (some ("osd_title_update", [("text", PValue.s "Setup Menu")]),
       ⟨5, ⟨some Mode.menu, 2, "Setup Menu".data, 3, []⟩, some 6⟩) := by
  have h := c4_unchanged_title ⟨5, ⟨some Mode.menu, 1, "Setup Menu".data, 3, []⟩, some 6⟩ 2
    "Setup Menu".data (by decide)
  exact h

/-! ## Claim C3: slot-1 routing depends on the established title -/

def c3aRun1 : Option Event × OsdState := parseResponseCore (initOsdState 5) 1 "NSE0Now Playing".data
def c3aRun2 : Option Event × OsdState := parseResponseCore c3aRun1.2 2 "NSE1\x01Song A".data
def c3bRun1 : Option Event × OsdState := parseResponseCore (initOsdState 5) 1 "NSE0Setup Menu".data
def c3bRun2 : Option Event × OsdState := parseResponseCore c3bRun1.2 2 "NSE1\x01Song A".data

/-- Claim C3 as stated is false in its second half: under a prior "Setup
Menu" title (mode `menu`), the slot-1 line `"NSE1\x01Song A"` emits no event
at all — the now-playing signifier `\x01` is not one of the recognized
menu-item signifiers, so the menu handler returns nothing and no dispatch
entry claims the line either. -/
theorem c3_menu_counterexample :
    c3bRun1.2.context.screen_title = "Setup Menu".data ∧
    c3bRun1.2.context.screen_mode = some Mode.menu ∧
    c3bRun2.1 = none := by decide

/-- Claim C3, amended: after a slot-0 title "Now Playing", the slot-1 line
whose text is the now-playing signifier byte `\x01` followed by "Song A"
emits `now_playing_title_update {text: "Song A"}`; the identical slot-1
bytes after a prior slot-0 title "Setup Menu" emit no event at all. -/
theorem c3_title_dependent_routing :
    c3aRun2.1 = some ("now_playing_title_update", [("text", PValue.s "Song A")]) ∧
    c3bRun2.1 = none := by decide

/-! ## Claim C2: the two-line fragmented-selection sequence -/

/-- Claim C2: from any state in Menu mode (and within the inactivity
timeout), the sequence "NSE2" then "Selected Text" yields exactly one event
across both calls: the first call buffers the pending slot and yields
nothing, the second is consumed as slot 2's text and yields the menu item
update with `line = 2`, `text = "Selected Text"`, `is_selected = true`. -/
theorem c2_menu_fragment_sequence (st : OsdState) (now1 now2 : Int)
    (hm : st.context.screen_mode = some Mode.menu)
    (ht : now1 - st.context.last_update_time ≤ st.context_timeout) :
    (parseResponseCore st now1 "NSE2".data).1 = none ∧
    parseResponseCore (parseResponseCore st now1 "NSE2".data).2 now2 "Selected Text".data =
      (some ("osd_menu_item_update",
        [("line", PValue.i 2), ("text", PValue.s "Selected Text"), ("is_selected", PValue.b true)]),
       { st with
           context := { st.context with last_update_time := now1 }
           pending_selected_line := none }) := by
  have hr : resetContextIfTimedOut st.context_timeout st.context now1 =
      { st.context with last_update_time := now1 } :=
    reset_of_not_timed_out _ _ _ (not_lt.mpr ht)
  have h1 : osdParseCore st now1 "NSE2".data =
      (none, { st with
                 context := { st.context with last_update_time := now1 }
                 pending_selected_line := some 2 }) := by
    have hpfx : hasPfx "NSE2".data "NSE".data = true := rfl
    have hnse : matchNse "NSE2".data = some (2, []) := rfl
    cases hsp : st.pending_selected_line with
    | none =>
        rw [osdParseCore, hsp, hpfx, hnse]
        simp only [hr, hm]
        simp [pyStrip]
    | some k =>
        rw [osdParseCore, hsp, hpfx, hnse]
        simp only [hr, hm]
        simp [pyStrip]
  have h2 : osdParseCore
      { st with
          context := { st.context with last_update_time := now1 }
          pending_selected_line := some 2 } now2 "Selected Text".data =
      (some ("osd_menu_item_update",
        [("line", PValue.i 2), ("text", PValue.s "Selected Text"), ("is_selected", PValue.b true)]),
       { st with
           context := { st.context with last_update_time := now1 }
           pending_selected_line := none }) := by
    have h := fragmentConsume
      { st with
          context := { st.context with last_update_time := now1 }
          pending_selected_line := some 2 } now2 "Selected Text".data 2 rfl (by decide)
    rw [h]
    simp [fragEventName, hm]
    decide
  have hd : dispatchTable PARSER_CONFIG "NSE2".data = none := by decide
  have hstep1 : parseResponseCore st now1 "NSE2".data =
      (none, { st with
                 context := { st.context with last_update_time := now1 }
                 pending_selected_line := some 2 }) := by
    rw [parseResponseCore, h1]
    simp [hd]
  refine ⟨by rw [hstep1], ?_⟩
  rw [hstep1, parseResponseCore, h2]

/-- Concrete instantiation of `c2_menu_fragment_sequence`. -/
theorem c2_menu_fragment_sequence_witness :
    (parseResponseCore ⟨5, ⟨some Mode.menu, 0, "Setup Menu".data, -1, []⟩, none⟩ 1
        "NSE2".data).1 = none ∧
    parseResponseCore
        (parseResponseCore ⟨5, ⟨some Mode.menu, 0, "Setup Menu".data, -1, []⟩, none⟩ 1
          "NSE2".data).2 2 "Selected Text".data =
      (some ("osd_menu_item_update",
        [("line", PValue.i 2), ("text", PValue.s "Selected Text"), ("is_selected", PValue.b true)]),
       ⟨5, ⟨some Mode.menu, 1, "Setup Menu".data, -1, []⟩, none⟩) := by
  exact c2_menu_fragment_sequence ⟨5, ⟨some Mode.menu, 0, "Setup Menu".data, -1, []⟩, none⟩ 1 2
    rfl (by decide)

/-! ## Claim C5: the shared half-step numeric convention -/

/-- Claim C5: the shared routine `_parse_value_with_half_step` decodes a
3-digit capture as the number divided by 10 and a 2-digit capture as the
number itself, and the sub-parsers with half-unit parameters all decode
through it: "PSDIL505" gives 50.5 and "PSDIL50" gives 50.0 (dialog level),
with the same convention visible in main volume, zone-2 volume and the
50-centred subwoofer and channel levels. -/
theorem c5_half_step_shared_decoding :
    (∀ ds : List Char, ds.length = 3 → parseValueWithHalfStep ds = (digVal ds : ℚ) / 10) ∧
    (∀ ds : List Char, ds.length = 2 → parseValueWithHalfStep ds = (digVal ds : ℚ)) ∧
    parseDialogLevel "PSDIL505".data = some [("value", PValue.q (101 / 2))] ∧
    parseDialogLevel "PSDIL50".data = some [("value", PValue.q 50)] ∧
    parseVolume "MV505".data = some ("volume_update", [("value", PValue.q (101 / 2))]) ∧
    parseZone2 "Z2505".data = some ("zone2_volume_update", [("value", PValue.q (101 / 2))]) ∧
    parseSubwooferLevelAdjust "PSSWL 515".data = some [("value", PValue.q (3 / 2))] ∧
    parseChannelLevel "CVC 605".data =
      some ("channel_level_update",
        [("channel", PValue.s "C"), ("value", PValue.q (21 / 2))]) := by
  have v505 : parseValueWithHalfStep ['5', '0', '5'] = (101 : ℚ) / 2 := by
    have hd : digVal ['5', '0', '5'] = 505 := rfl
    rw [parseValueWithHalfStep, hd]; norm_num
  have v50 : parseValueWithHalfStep ['5', '0'] = (50 : ℚ) := by
    have hd : digVal ['5', '0'] = 50 := rfl
    rw [parseValueWithHalfStep, hd]; norm_num
  have v515 : parseValueWithHalfStep ['5', '1', '5'] = (103 : ℚ) / 2 := by
    have hd : digVal ['5', '1', '5'] = 515 := rfl
    rw [parseValueWithHalfStep, hd]; norm_num
  have v605 : parseValueWithHalfStep ['6', '0', '5'] = (121 : ℚ) / 2 := by
    have hd : digVal ['6', '0', '5'] = 605 := rfl
    rw [parseValueWithHalfStep, hd]; norm_num
  refine ⟨?_, ?_, ?_, ?_, ?_, ?_, ?_, ?_⟩
  · intro ds h; rw [parseValueWithHalfStep, if_pos h]
  · intro ds h; rw [parseValueWithHalfStep, if_neg (by simp [h])]
  · have b : parseDialogLevel "PSDIL505".data
        = some [("value", PValue.q (parseValueWithHalfStep ['5', '0', '5']))] := rfl
    rw [b, v505]
  · have b : parseDialogLevel "PSDIL50".data
        = some [("value", PValue.q (parseValueWithHalfStep ['5', '0']))] := rfl
    rw [b, v50]
  · have b : parseVolume "MV505".data
        = some ("volume_update", [("value", PValue.q (parseValueWithHalfStep ['5', '0', '5']))]) := rfl
    rw [b, v505]
  · have b : parseZone2 "Z2505".data
        = some ("zone2_volume_update",
            [("value", PValue.q (parseValueWithHalfStep ['5', '0', '5']))]) := rfl
    rw [b, v505]
  · have b : parseSubwooferLevelAdjust "PSSWL 515".data
        = some [("value", PValue.q (parseValueWithHalfStep ['5', '1', '5'] - 50))] := rfl
    rw [b, v515]; norm_num
  · have b : parseChannelLevel "CVC 605".data
        = some ("channel_level_update",
            [("channel", PValue.s "C"),
             ("value", PValue.q (parseValueWithHalfStep ['6', '0', '5'] - 50))]) := rfl
    rw [b, v605]; norm_num

/-- Concrete instantiation of `c5_half_step_shared_decoding`. -/
theorem c5_witness : parseValueWithHalfStep ['1', '2', '3'] = (digVal ['1', '2', '3'] : ℚ) / 10 :=
  c5_half_step_shared_decoding.1 ['1', '2', '3'] rfl

/-! ## Claim C10: the half-step division happens only at length 3 -/

/-- Claim C10: the shared conversion routine divides by 10 only when the
captured digit string has exactly 3 characters; every other length is
returned undivided — a 1-digit capture "5" decodes to 5.0 and a 4-digit
capture "1005" decodes to 1005.0, not 100.5. -/
theorem c10_half_step_three_only :
    (∀ ds : List Char, ds.length ≠ 3 → parseValueWithHalfStep ds = (digVal ds : ℚ)) ∧
    parseValueWithHalfStep ['5'] = 5 ∧
    parseValueWithHalfStep ['1', '0', '0', '5'] = 1005 := by
  refine ⟨?_, ?_, ?_⟩
  · intro ds h; rw [parseValueWithHalfStep, if_neg h]
  · have hd : digVal ['5'] = 5 := rfl
    rw [parseValueWithHalfStep, hd]; norm_num
  · have hd : digVal ['1', '0', '0', '5'] = 1005 := rfl
    rw [parseValueWithHalfStep, hd]; norm_num

/-- Concrete instantiation of `c10_half_step_three_only`. -/
theorem c10_witness :
    parseValueWithHalfStep ['1', '2', '3', '4'] = (digVal ['1', '2', '3', '4'] : ℚ) :=
  c10_half_step_three_only.1 ['1', '2', '3', '4'] (by decide)

/-! ## Claim C6: MVMAX never decodes as a plain volume update -/

lemma hasPfx_append (p t : List Char) : hasPfx (p ++ t) p = true := by
  induction p with
  | nil => cases t <;> rfl
  | cons x xs ih => simp [hasPfx, ih]

/-- Claim C6: decoding "MVMAX735" (in any state with no pending OSD fragment,
so that the stateful OSD parser passes on the line) produces exactly the
max-volume update with value 73.5; and no line starting with "MVMAX" ever
produces a plain `volume_update` event, in any state — the `MVMAX` table
entry precedes `MV`, and the max-volume pattern is tried first inside the
shared volume sub-parser. -/
theorem c6_mvmax_routing :
    (∀ (st : OsdState) (now : Int), st.pending_selected_line = none →
       (parseResponseCore st now "MVMAX735".data).1 =
         some ("max_volume_update", [("value", PValue.q (147 / 2))])) ∧
    (∀ (st : OsdState) (now : Int) (cs : List Char) (pl : Payload),
       hasPfx cs "MVMAX".data = true →
       (parseResponseCore st now cs).1 ≠ some ("volume_update", pl)) := by
  constructor
  · intro st now hp
    have hb : hasPfx "MVMAX735".data "NSE".data = false := rfl
    have h1 : osdParseCore st now "MVMAX735".data = (none, st) := by
      rw [osdParseCore, hp, hb]; rfl
    have v : parseValueWithHalfStep ['7', '3', '5'] = (147 : ℚ) / 2 := by
      have hd : digVal ['7', '3', '5'] = 735 := rfl
      rw [parseValueWithHalfStep, hd]; norm_num
    have hdisp : dispatchTable PARSER_CONFIG "MVMAX735".data =
        some ("max_volume_update", [("value", PValue.q (parseValueWithHalfStep ['7', '3', '5']))]) := rfl
    rw [parseResponseCore, h1]
    simp [hdisp, v]
  · intro st now cs pl hpfx
    obtain ⟨t, rfl⟩ := hasPfx_exists "MVMAX".data cs hpfx
    have hb : hasPfx ("MVMAX".data ++ t) "NSE".data = false := rfl
    cases hsp : st.pending_selected_line with
    | some n =>
        have h := fragmentConsume st now ("MVMAX".data ++ t) n hsp hb
        rw [parseResponseCore, h]
        simp only [fragEventName]
        split <;> simp
    | none =>
        have h1 : osdParseCore st now ("MVMAX".data ++ t) = (none, st) := by
          rw [osdParseCore, hsp, hb]; rfl
        rw [parseResponseCore, h1]
        have hm : hasPfx ("MVMAX".data ++ t) "MVMAX".data = true := hasPfx_append "MVMAX".data t
        have hdisp : dispatchTable PARSER_CONFIG ("MVMAX".data ++ t) =
            parseVolume ("MVMAX".data ++ t) := by
          rw [PARSER_CONFIG, dispatchTable, if_pos hm]
          rfl
        simp only [hdisp]
        rw [parseVolume, if_pos hm]
        have hdrop5 : ("MVMAX".data ++ t).drop 5 = t := rfl
        rw [hdrop5]
        cases ho : optWsDigitsEnd t with
        | some ds => simp [ho]
        | none =>
            have hm2 : hasPfx ("MVMAX".data ++ t) "MV".data = true :=
              hasPfx_append "MV".data ('M' :: 'A' :: 'X' :: t)
            have hdrop2 : ("MVMAX".data ++ t).drop 2 = 'M' :: 'A' :: 'X' :: t := rfl
            have hd : digitsEnd ('M' :: 'A' :: 'X' :: t) = none := by
              rw [digitsEnd, if_neg]
              simp
            simp [ho, hm2, hdrop2, hd]

/-- Concrete instantiation of `c6_mvmax_routing`. -/
theorem c6_mvmax_routing_witness :
    (parseResponseCore (initOsdState 5) 0 "MVMAX735".data).1 =
      some ("max_volume_update", [("value", PValue.q (147 / 2))]) ∧
    (parseResponseCore (initOsdState 5) 0 "MVMAX40".data).1 ≠
      some ("volume_update", [("value", PValue.q 40)]) :=
  ⟨c6_mvmax_routing.1 (initOsdState 5) 0 rfl,
   c6_mvmax_routing.2 (initOsdState 5) 0 "MVMAX40".data [("value", PValue.q 40)] (by decide)⟩

/-! ## Claim C7: first-match-wins dispatch with no fallback -/

/-- Claim C7: at most one dispatch-table entry is ever applied.  The first
entry whose prefix matches the line determines the whole result whatever
comes after it in the table (the trailing entries are universally
quantified), and when that entry's sub-parser yields nothing the dispatch
returns nothing rather than falling through; `parse_response` consults the
table exactly when the OSD machine produced no event. -/
theorem c7_first_match_stops :
    (∀ (pre : List TableEntry) (e : TableEntry) (post : List TableEntry) (r : List Char),
       (∀ x ∈ pre, hasPfx r x.pfx.data = false) → hasPfx r e.pfx.data = true →
       dispatchTable (pre ++ e :: post) r = applyEntry e r) ∧
    (∀ (pre : List TableEntry) (e : TableEntry) (post : List TableEntry) (r : List Char),
       (∀ x ∈ pre, hasPfx r x.pfx.data = false) → hasPfx r e.pfx.data = true →
       applyEntry e r = none →
       dispatchTable (pre ++ e :: post) r = none) ∧
    (∀ (st : OsdState) (now : Int) (r : List Char),
       (osdParseCore st now r).1 = none →
       (parseResponseCore st now r).1 = dispatchTable PARSER_CONFIG r) := by
  have main : ∀ (pre : List TableEntry) (e : TableEntry) (post : List TableEntry) (r : List Char),
      (∀ x ∈ pre, hasPfx r x.pfx.data = false) → hasPfx r e.pfx.data = true →
      dispatchTable (pre ++ e :: post) r = applyEntry e r := by
    intro pre
    induction pre with
    | nil =>
        intro e post r _ he
        simp [dispatchTable, he]
    | cons x xs ih =>
        intro e post r hpre he
        have hx := hpre x (List.mem_cons_self x xs)
        simp only [List.cons_append, dispatchTable]
        rw [if_neg (by simp [hx])]
        exact ih e post r (fun y hy => hpre y (List.mem_cons_of_mem x hy)) he
  refine ⟨main, ?_, ?_⟩
  · intro pre e post r hpre he hnone
    rw [main pre e post r hpre he, hnone]
  · intro st now r h
    rw [parseResponseCore]
    cases hosd : osdParseCore st now r with
    | mk ev st1 =>
        rw [hosd] at h
        have hev : ev = none := h
        subst hev
        rfl

/-- Concrete instantiation of `c7_first_match_stops`: "MVMAX" (no digits)
matches the first entry, whose sub-parser yields nothing, so the whole
dispatch yields nothing even though the later "MV" entry also matches. -/
theorem c7_first_match_stops_witness :
    dispatchTable PARSER_CONFIG "MVMAX".data = none := by
  have h := c7_first_match_stops.2.1 [] ⟨"MVMAX", TParser.full parseVolume⟩
    (PARSER_CONFIG.drop 1) "MVMAX".data (by intro x hx; simp at hx) (by decide) (by decide)
  exact h

end Marantz
